import Mathlib

/-
Verification of the developer-self-service repository's specification.

The repository ships the React frontend (src/frontend) and the Terraform
modules (src/terraform).  The backend orchestration layer — the Environment
Lifecycle Controller, the Secret Rotation Coordinator and the Provisioning
Gateway — is declared by the spec and by the frontend types
(src/frontend/src/types/index.ts) but its code is not part of the shipped
sources, so those operations are modelled here directly from the spec's
words (each such definition is marked `Modelled from the spec:`).  The
Terraform modules (environment namespace labels, secrets data generation)
are embedded from their sources.
-/

namespace DevSelfService

/-! ## Association-list utilities (string-keyed maps, as used throughout) -/

/-- Lookup of the first value bound to a key in an association list. -/
def alookup {α : Type} : List (String × α) → String → Option α
  | [], _ => none
  | (k, v) :: rest, key => if k = key then some v else alookup rest key

/-- Replace the value bound to a key, leaving the list unchanged if absent. -/
def aupdate {α : Type} : List (String × α) → String → α → List (String × α)
  | [], _, _ => []
  | (k, v) :: rest, key, v' =>
      if k = key then (k, v') :: rest else (k, v) :: aupdate rest key v'

/-- The key set of an association list (in order, duplicates kept). -/
def keysOf {α : Type} (l : List (String × α)) : List String := l.map Prod.fst

theorem alookup_aupdate_ne {α : Type} (l : List (String × α)) (key k : String)
    (v : α) (h : k ≠ key) : alookup (aupdate l key v) k = alookup l k := by
  induction l with
  | nil => rfl
  | cons p rest ih =>
    obtain ⟨pk, pv⟩ := p
    by_cases hpk : pk = key
    · subst hpk
      simp [aupdate, alookup, h, Ne.symm h]
    · simp only [aupdate, hpk, if_false]
      by_cases hk : pk = k <;> simp [alookup, hk, ih]

theorem keysOf_aupdate {α : Type} (l : List (String × α)) (key : String) (v : α) :
    keysOf (aupdate l key v) = keysOf l := by
  induction l with
  | nil => rfl
  | cons p rest ih =>
    obtain ⟨pk, pv⟩ := p
    by_cases hpk : pk = key
    · simp [aupdate, hpk, keysOf]
    · simp only [aupdate, hpk, if_false, keysOf, List.map_cons] at ih ⊢
      rw [ih]

instance {ε α : Type} [DecidableEq ε] [DecidableEq α] :
    DecidableEq (Except ε α) := fun a b =>
  match a, b with
  | .ok x, .ok y =>
      if h : x = y then isTrue (by rw [h]) else isFalse (by simp [h])
  | .error x, .error y =>
      if h : x = y then isTrue (by rw [h]) else isFalse (by simp [h])
  | .ok _, .error _ => isFalse (by simp)
  | .error _, .ok _ => isFalse (by simp)

/-! ## Secret data model

Mirrors the `Secret` / `SecretRotationHistory` / `SecretRotateRequest`
shapes of src/frontend/src/types/index.ts, with the secret's values added
(values never cross the API boundary; the coordinator holds them only
inside the Cluster Gateway boundary).  Timestamps are epoch seconds. -/

structure RotationEntry where
  rotated_at : Nat
  rotated_by : Option String
  version : Nat
deriving DecidableEq

structure SecretObj where
  values : List (String × String)
  rotation_history : List RotationEntry
deriving DecidableEq

/-- The secret's current key set (key names only, never values). -/
def SecretObj.keys (s : SecretObj) : List String := keysOf s.values

/-- Mirrors `SecretRotateRequest` of src/frontend/src/types/index.ts:
`keys?`, `generate_new?`, `update_deployments?`. -/
structure RotationIntent where
  requested_keys : List String
  generate_new : Bool
  update_deployments : Bool

inductive RotationError
  | notFound
  | unknownKey
  | invalidRequest
  | conflictRetry
  | rotationInProgress
deriving DecidableEq

/-- Result of a rotation: the new key set, the new history version, and the
per-deployment restart-trigger outcomes (deployment name, trigger ok). -/
structure RotationResult where
  keys : List String
  version : Nat
  restarts : List (String × Bool)
deriving DecidableEq

/-- The maximum `version` present in a rotation history (0 when empty). -/
def maxVersion (h : List RotationEntry) : Nat :=
  h.foldr (fun e acc => max e.version acc) 0

/-- Modelled from the spec: §4.2 step 2 — the keys in scope of a rotation
are `requested_keys`, or all current keys when `requested_keys` is empty. -/
def scopeOf (secret : SecretObj) (intent : RotationIntent) : List String :=
  if intent.requested_keys.isEmpty then secret.keys else intent.requested_keys

/-- Modelled from the spec: §4.2 step 3 — the new payload is an atomic
merge: keys not in scope keep their current value, keys in scope get the
newly generated value; the key set is never partial. -/
def mergePayload (values : List (String × String)) (scope : List String)
    (gen : String → String) : List (String × String) :=
  values.map (fun p => if p.1 ∈ scope then (p.1, gen p.1) else p)

/-- Modelled from the spec: §4.2 steps 2–5 of `Rotate` acting on one secret
object.  `gen` is the injected cryptographic generator, `now` the injected
clock, `writeOk` whether the step-4 optimistic-concurrency write succeeds
(false models a resource-version conflict, reported as `ConflictRetry`).
Input constraint: non-empty `requested_keys` must be a subset of the
current key set, else `UnknownKey`; `generate_new = false` is rejected as
`InvalidRequest`.  On success the payload is the atomic merge and exactly
one history entry is appended with version = previous max + 1. -/
def rotateSecret (secret : SecretObj) (intent : RotationIntent)
    (gen : String → String) (now : Nat) (rotatedBy : Option String)
    (writeOk : Bool) : Except RotationError SecretObj :=
  if ¬ intent.requested_keys.isEmpty ∧
      ¬ (∀ k ∈ intent.requested_keys, k ∈ secret.keys) then
    .error .unknownKey
  else if ¬ intent.generate_new then
    .error .invalidRequest
  else if ¬ writeOk then
    .error .conflictRetry
  else
    .ok { values := mergePayload secret.values (scopeOf secret intent) gen,
          rotation_history := secret.rotation_history ++
            [⟨now, rotatedBy, maxVersion secret.rotation_history + 1⟩] }

/-- Modelled from the spec: §4.2 / §5 — the full `Rotate(service_id,
intent)` call.  `store` maps service ids to their (unique) secret object;
`locks` is the set of service ids with a rotation currently in flight (the
per-service mutual-exclusion tokens); `deps` are the deployments
referencing the secret and `trig` the per-deployment restart-trigger
outcome.  A held token fails fast with `RotationInProgress` before step 1;
an absent secret fails with `NotFound`; steps 1–5 failures leave the store
untouched; step 6 triggers every deployment and reports each outcome
individually without affecting the already-written secret. -/
def rotate (store : List (String × SecretObj)) (locks : List String)
    (sid : String) (intent : RotationIntent) (gen : String → String)
    (now : Nat) (rotatedBy : Option String) (writeOk : Bool)
    (deps : List String) (trig : String → Bool) :
    List (String × SecretObj) × Except RotationError RotationResult :=
  if sid ∈ locks then
    (store, .error .rotationInProgress)
  else
    match alookup store sid with
    | none => (store, .error .notFound)
    | some secret =>
      match rotateSecret secret intent gen now rotatedBy writeOk with
      | .error e => (store, .error e)
      | .ok secret' =>
        let restarts :=
          if intent.update_deployments then deps.map (fun d => (d, trig d)) else []
        (aupdate store sid secret',
         .ok ⟨secret'.keys, maxVersion secret.rotation_history + 1, restarts⟩)

/-- Modelled from the spec: §7 retry policy — a `ConflictRetry` from the
step-4 write is retried exactly once (`writeOk2` is the second attempt's
write outcome); every other error is surfaced immediately, never retried.
The third component counts the attempts performed. -/
def rotateWithRetry (store : List (String × SecretObj)) (locks : List String)
    (sid : String) (intent : RotationIntent) (gen : String → String)
    (now : Nat) (rotatedBy : Option String) (writeOk1 writeOk2 : Bool)
    (deps : List String) (trig : String → Bool) :
    List (String × SecretObj) × Except RotationError RotationResult × Nat :=
  match rotate store locks sid intent gen now rotatedBy writeOk1 deps trig with
  | (store1, .error .conflictRetry) =>
      match rotate store1 locks sid intent gen now rotatedBy writeOk2 deps trig with
      | (store2, r2) => (store2, r2, 2)
  | (store1, r1) => (store1, r1, 1)

/-- Modelled from the spec: §5 — lazily created per-service_id
mutual-exclusion token: acquisition fails when a rotation for the same
service id is already in flight, and is independent across service ids. -/
def tryAcquire (locks : List String) (sid : String) : Option (List String) :=
  if sid ∈ locks then none else some (sid :: locks)

/-! ## Environment lifecycle model

Mirrors the `Environment` / `EnvironmentStatus` shapes of
src/frontend/src/types/index.ts.  The controller itself is modelled from
the spec (§4.1): it is a periodic scan taking the current time as an
explicit input. Timestamps are epoch seconds. -/

inductive EnvStatus
  | creating
  | active
  | expiring
  | expired
  | deleted
deriving DecidableEq

/-- An environment as recorded on its Kubernetes namespace object plus the
presence of that namespace in the cluster (`nsPresent`). -/
structure EnvObj where
  environment_id : String
  namespace_name : String
  ttl_hours : Nat
  created_at : Nat
  expires_at : Nat
  status : EnvStatus
  nsPresent : Bool
deriving DecidableEq

/-- Modelled from the spec: §3 — creation fixes
`expires_at = created_at + ttl_hours` once; the value is stored on the
namespace object (src/terraform/modules/environment/variables.tf passes it
in as `expires_at`) and never derived again. -/
def mkEnvironment (eid ns : String) (created ttl : Nat) : EnvObj :=
  { environment_id := eid, namespace_name := ns, ttl_hours := ttl,
    created_at := created, expires_at := created + ttl * 3600,
    status := .creating, nsPresent := true }

/-- Modelled from the spec: §4.1 — the state implied purely by the
injected current time versus the recorded `expires_at`:
Active until `now ≥ expires_at - warning_window`, then Expiring, then
Expired once `now ≥ expires_at`. -/
def impliedStatus (now expiresAt warningWindow : Nat) : EnvStatus :=
  if expiresAt ≤ now then .expired
  else if expiresAt ≤ now + warningWindow then .expiring
  else .active

/-- Modelled from the spec: §4.1 — one scan tick over one environment.
Deleted is terminal.  An environment recorded Expired is retried:
deleting an already-absent namespace counts as success, and Deleted is
recorded only after the delete returns success.  Creating becomes the
time-implied state once the namespace is confirmed present.  Active and
Expiring have identical cleanup behaviour: when the implied state is
Expired the scan records Expired and triggers the cleanup delete
(`deleteOk` is the injected outcome of that call). -/
def scanTick (now warningWindow : Nat) (deleteOk : Bool) (e : EnvObj) : EnvObj :=
  match e.status with
  | .deleted => e
  | .expired =>
      if ¬ e.nsPresent then { e with status := .deleted }
      else if deleteOk then { e with status := .deleted, nsPresent := false }
      else e
  | .creating =>
      if e.nsPresent then
        { e with status := impliedStatus now e.expires_at warningWindow }
      else e
  | _ =>
      match impliedStatus now e.expires_at warningWindow with
      | .expired => { e with status := .expired,
                             nsPresent := e.nsPresent && !deleteOk }
      | s => { e with status := s }

/-- Modelled from the spec: §4.1 — a manual, user-initiated delete invokes
the same idempotent cleanup routine as Expired → Deleted, short-circuiting
the timer; a failed delete leaves the environment unchanged for the next
scan to retry. -/
def manualDelete (deleteOk : Bool) (e : EnvObj) : EnvObj :=
  if ¬ e.nsPresent then { e with status := .deleted }
  else if deleteOk then { e with status := .deleted, nsPresent := false }
  else e

/-- Modelled from the spec: §4.3 / §6 — `Destroy(ref)` against the cluster
(here: the set of existing namespace names).  Destroying an already-absent
resource returns success; `deleteOk` is the injected outcome of the
underlying delete call when the resource does exist.  Returns the new
cluster and the success flag. -/
def destroyNamespace (deleteOk : Bool) (cluster : List String) (name : String) :
    List String × Bool :=
  if name ∈ cluster then
    if deleteOk then (cluster.erase name, true) else (cluster, false)
  else (cluster, true)

/-! ## Decimal rendering of numbers

Terraform's `tostring` renders a number in decimal; the controller also
serialises its epoch-second timestamps into label/annotation strings.
`natStr` is that rendering and `decodeNat` the inverse parse used when the
Reconciliation Store rebuilds records from labels. -/

/-- Little-endian decimal digit characters of a number (empty for 0). -/
def natDigitsLE : Nat → List Char
  | 0 => []
  | n + 1 => Nat.digitChar ((n + 1) % 10) :: natDigitsLE ((n + 1) / 10)
decreasing_by exact Nat.div_lt_self (Nat.succ_pos n) (by decide)

/-- Decimal rendering of a number, as Terraform's `tostring` produces. -/
def natStr (n : Nat) : String :=
  if n = 0 then "0" else String.mk (natDigitsLE n).reverse

/-- The value of one decimal digit character. -/
def charDigit (c : Char) : Option Nat :=
  if 48 ≤ c.toNat ∧ c.toNat ≤ 57 then some (c.toNat - 48) else none

/-- Value of a little-endian decimal digit string. -/
def valLE : List Char → Option Nat
  | [] => some 0
  | c :: cs =>
      match charDigit c, valLE cs with
      | some d, some v => some (d + 10 * v)
      | _, _ => none

/-- Parse a decimal string back into a number. -/
def decodeNat (s : String) : Option Nat :=
  if s.data = [] then none else valLE s.data.reverse

theorem charDigit_digitChar (d : Nat) (h : d < 10) :
    charDigit (Nat.digitChar d) = some d := by
  interval_cases d <;> decide

theorem valLE_natDigitsLE (n : Nat) : valLE (natDigitsLE n) = some n := by
  induction n using Nat.strong_induction_on with
  | _ n ih =>
    match n with
    | 0 => rw [natDigitsLE]; rfl
    | m + 1 =>
      rw [natDigitsLE]
      have h1 : (m + 1) % 10 < 10 := Nat.mod_lt _ (by decide)
      have h2 : valLE (natDigitsLE ((m + 1) / 10)) = some ((m + 1) / 10) :=
        ih _ (Nat.div_lt_self (Nat.succ_pos m) (by decide))
      simp only [valLE, charDigit_digitChar _ h1, h2]
      congr 1
      omega

theorem natDigitsLE_ne_nil (n : Nat) (h : n ≠ 0) : natDigitsLE n ≠ [] := by
  match n with
  | 0 => exact absurd rfl h
  | m + 1 => rw [natDigitsLE]; exact List.cons_ne_nil _ _

theorem decodeNat_natStr (n : Nat) : decodeNat (natStr n) = some n := by
  by_cases h : n = 0
  · subst h; decide
  · have hne : (natDigitsLE n).reverse ≠ [] := by
      intro hc
      exact natDigitsLE_ne_nil n h (List.reverse_eq_nil_iff.mp hc)
    simp only [natStr, h, if_false, decodeNat, String.data]
    rw [if_neg hne, List.reverse_reverse]
    exact valLE_natDigitsLE n

/-! ## Terraform environment module embedding

From src/terraform/modules/environment/main.tf: the namespace object's
labels and annotations.  Terraform's `merge` is right-biased: a key in
`var.labels` overrides the base entry. -/

/-- Terraform `merge(base, extra)`: keys of both, `extra` winning. -/
def tfMerge (base extra : List (String × String)) : List (String × String) :=
  base.filter (fun p => (alookup extra p.1).isNone) ++ extra

/-- Labels of `kubernetes_namespace.environment`
(src/terraform/modules/environment/main.tf lines 7–17). -/
def environmentNamespaceLabels (environment_id environment_name : String)
    (ttl_hours : Nat) (expires_at : String)
    (extraLabels : List (String × String)) : List (String × String) :=
  tfMerge
    [("managed-by", "developer-self-service"),
     ("environment-id", environment_id),
     ("environment-name", environment_name),
     ("ttl-hours", natStr ttl_hours),
     ("expires-at", expires_at),
     ("temporary-environment", "true")]
    extraLabels

/-- Annotations of `kubernetes_namespace.environment`
(src/terraform/modules/environment/main.tf lines 18–22); `createdAtStamp`
stands for the `timestamp()` taken at apply time. -/
def environmentNamespaceAnnots (ttl_hours : Nat)
    (expires_at createdAtStamp : String) : List (String × String) :=
  [("developer-self-service/created-at", createdAtStamp),
   ("developer-self-service/expires-at", expires_at),
   ("developer-self-service/ttl-hours", natStr ttl_hours)]

/-- A Kubernetes object as the Reconciliation Store sees it: kind, name,
namespace, labels and annotations. -/
structure K8sObj where
  kind : String
  name : String
  ns : String
  labels : List (String × String)
  annots : List (String × String)
deriving DecidableEq

/-- The namespace object written for an environment, carrying exactly the
labels and annotations of src/terraform/modules/environment/main.tf. -/
def environmentNamespaceObj (namespace_name environment_id environment_name : String)
    (ttl_hours : Nat) (expires_at createdAtStamp : String)
    (extraLabels : List (String × String)) : K8sObj :=
  { kind := "Namespace", name := namespace_name, ns := namespace_name,
    labels := environmentNamespaceLabels environment_id environment_name
                ttl_hours expires_at extraLabels,
    annots := environmentNamespaceAnnots ttl_hours expires_at createdAtStamp }

/-! ## Terraform secrets module embedding

From src/unnamed/part_000 (`random_password.secrets`,
`local.generated_secret_data`) and the `kubernetes_secret.secret` resource
shown in src/terraform/modules/secrets/README.md. -/

/-- The `for_each` instance keys of `random_password.secrets`:
`length(var.secret_data) == 0 && length(var.secret_keys) > 0
 ? toset(var.secret_keys) : toset([])`. -/
def randomPasswordKeys (secret_data : List (String × String))
    (secret_keys : List String) : List String :=
  if secret_data.length = 0 ∧ secret_keys.length > 0 then secret_keys else []

/-- `local.generated_secret_data`:
`length(var.secret_data) > 0 ? var.secret_data
 : { for key in var.secret_keys : key => random_password.secrets[key].result }`.
`genValue len key` stands for `random_password.secrets[key].result`, an
independently drawn random value of length `len = var.secret_key_length`. -/
def generated_secret_data (secret_data : List (String × String))
    (secret_keys : List String) (genValue : Nat → String → String)
    (secret_key_length : Nat) : List (String × String) :=
  if secret_data.length > 0 then secret_data
  else secret_keys.map (fun k => (k, genValue secret_key_length k))

/-! ## Reconciliation Store rebuild -/

/-- The persisted view of one environment that must be recoverable from
cluster labels alone (spec §6): identity, TTL, timestamps and the set of
service ids provisioned inside it. -/
structure EnvRecord where
  environment_id : String
  namespace_name : String
  ttl_hours : Nat
  created_at : Nat
  expires_at : Nat
  services : List String
deriving DecidableEq

/-- Modelled from the spec: §2/§6 — a deployment provisioned for a service
inside an environment's namespace carries the `managed-by` label and its
service id (the service module's deployment resource is not among the
shipped sources; src/terraform/modules/secrets/README.md shows the same
`managed-by`/`service-id` labelling on sibling objects). -/
def serviceDeploymentObj (nsName sid : String) : K8sObj :=
  { kind := "Deployment", name := sid, ns := nsName,
    labels := [("managed-by", "developer-self-service"), ("service-id", sid)],
    annots := [] }

/-- The objects written to the cluster for one environment record: the
labelled namespace plus one labelled deployment per service. -/
def envObjsOf (r : EnvRecord) (environment_name : String)
    (extraLabels : List (String × String)) : List K8sObj :=
  environmentNamespaceObj r.namespace_name r.environment_id environment_name
      r.ttl_hours (natStr r.expires_at) (natStr r.created_at) extraLabels
    :: r.services.map (serviceDeploymentObj r.namespace_name)

/-- Whether an object carries the system's `managed-by` label. -/
def managedBySystem (o : K8sObj) : Bool :=
  alookup o.labels "managed-by" = some "developer-self-service"

/-- Modelled from the spec: §6 — the Reconciliation Store rebuilds an
environment's record purely by listing the cluster's objects by their
labels and reading labels/annotations; no other store is consulted. -/
def rebuildRecord (objs : List K8sObj) (nsName : String) : Option EnvRecord :=
  match objs.find? (fun o =>
      o.kind = "Namespace" && o.name = nsName && managedBySystem o) with
  | none => none
  | some nsObj =>
    match alookup nsObj.labels "environment-id",
          (alookup nsObj.labels "ttl-hours").bind decodeNat,
          (alookup nsObj.annots "developer-self-service/created-at").bind decodeNat,
          (alookup nsObj.annots "developer-self-service/expires-at").bind decodeNat with
    | some eid, some ttl, some created, some expires =>
        some { environment_id := eid, namespace_name := nsName,
               ttl_hours := ttl, created_at := created, expires_at := expires,
               services :=
                 (objs.filter (fun o =>
                    o.kind = "Deployment" && o.ns = nsName && managedBySystem o)).filterMap
                   (fun o => alookup o.labels "service-id") }
    | _, _, _, _ => none

/-! ## Helper lemmas -/

theorem alookup_mergePayload (v : List (String × String)) (s : List String)
    (g : String → String) (k : String) :
    alookup (mergePayload v s g) k =
      if k ∈ s then (alookup v k).map (fun _ => g k) else alookup v k := by
  induction v with
  | nil =>
    by_cases h : k ∈ s <;> simp [mergePayload, alookup, h]
  | cons p rest ih =>
    obtain ⟨pk, pv⟩ := p
    simp only [mergePayload, List.map_cons] at ih ⊢
    by_cases hmem : pk ∈ s
    · rw [if_pos hmem]
      by_cases hk : pk = k
      · subst hk
        simp [alookup, hmem]
      · simp only [alookup, hk, if_false]
        exact ih
    · rw [if_neg hmem]
      by_cases hk : pk = k
      · subst hk
        simp [alookup, hmem]
      · simp only [alookup, hk, if_false]
        exact ih

theorem keysOf_mergePayload (v : List (String × String)) (s : List String)
    (g : String → String) : keysOf (mergePayload v s g) = keysOf v := by
  induction v with
  | nil => rfl
  | cons p rest ih =>
    obtain ⟨pk, pv⟩ := p
    by_cases hmem : pk ∈ s <;>
      simp only [mergePayload, List.map_cons, if_pos, if_neg, hmem, keysOf,
        ite_true, ite_false] at ih ⊢ <;> rw [ih]

theorem alookup_isSome_iff {α : Type} (l : List (String × α)) (k : String) :
    (alookup l k).isSome ↔ k ∈ keysOf l := by
  induction l with
  | nil => simp [alookup, keysOf]
  | cons p rest ih =>
    obtain ⟨pk, pv⟩ := p
    by_cases hk : pk = k
    · subst hk; simp [alookup, keysOf]
    · simp [alookup, keysOf, hk, ih, Ne.symm hk]

theorem version_le_maxVersion (h : List RotationEntry) (e : RotationEntry)
    (hm : e ∈ h) : e.version ≤ maxVersion h := by
  induction h with
  | nil => cases hm
  | cons x rest ih =>
    rcases List.mem_cons.mp hm with h1 | h2
    · subst h1; exact Nat.le_max_left _ _
    · exact Nat.le_trans (ih h2) (Nat.le_max_right _ _)

theorem maxVersion_append_one (h : List RotationEntry) (e : RotationEntry) :
    maxVersion (h ++ [e]) = max (maxVersion h) e.version := by
  induction h with
  | nil => simp [maxVersion]
  | cons x rest ih =>
    simp only [maxVersion, List.foldr_cons, List.cons_append] at ih ⊢
    rw [ih, Nat.max_assoc]

/-- Versions of a rotation history, in sequence order. -/
def historyVersions (h : List RotationEntry) : List Nat := h.map (·.version)

theorem chain_append_new (h : List RotationEntry) (e : RotationEntry)
    (hc : List.Chain' (· < ·) (historyVersions h))
    (hv : maxVersion h < e.version) :
    List.Chain' (· < ·) (historyVersions (h ++ [e])) := by
  have : historyVersions (h ++ [e]) = historyVersions h ++ [e.version] := by
    simp [historyVersions]
  rw [this]
  rw [List.chain'_append]
  refine ⟨hc, List.chain'_singleton _, ?_⟩
  intro x hx y hy
  simp only [List.head?_cons, Option.mem_def, Option.some.injEq] at hy
  subst hy
  have hxm : x ∈ historyVersions h := List.mem_of_mem_getLast? hx
  obtain ⟨en, hen, hxv⟩ := List.mem_map.mp hxm
  subst hxv
  exact Nat.lt_of_le_of_lt (version_le_maxVersion h en hen) hv

theorem rotateSecret_ok_eq (secret : SecretObj) (intent : RotationIntent)
    (gen : String → String) (now : Nat) (rotatedBy : Option String)
    (writeOk : Bool) (secret' : SecretObj)
    (h : rotateSecret secret intent gen now rotatedBy writeOk = .ok secret') :
    secret' = { values := mergePayload secret.values (scopeOf secret intent) gen,
                rotation_history := secret.rotation_history ++
                  [⟨now, rotatedBy, maxVersion secret.rotation_history + 1⟩] } := by
  simp only [rotateSecret] at h
  split_ifs at h
  exact (Except.ok.inj h).symm

theorem rotateSecret_ne_inProgress (secret : SecretObj) (intent : RotationIntent)
    (gen : String → String) (now : Nat) (rotatedBy : Option String)
    (writeOk : Bool) (e : RotationError)
    (h : rotateSecret secret intent gen now rotatedBy writeOk = .error e) :
    e ≠ .rotationInProgress := by
  simp only [rotateSecret] at h
  split_ifs at h <;> cases Except.error.inj h <;> simp

/-! ## Claims -/

/-- C1: for every successful rotation, keys outside the requested scope
keep exactly their current value, keys in scope receive the newly
generated value, the key set is unchanged (the written payload is always a
complete key set), and one history entry with version = previous max + 1
is appended. -/
theorem rotate_frame_effect (secret : SecretObj) (intent : RotationIntent)
    (gen : String → String) (now : Nat) (rotatedBy : Option String)
    (writeOk : Bool) (secret' : SecretObj)
    (h : rotateSecret secret intent gen now rotatedBy writeOk = .ok secret') :
    (∀ k, k ∉ scopeOf secret intent →
        alookup secret'.values k = alookup secret.values k)
  ∧ (∀ k, k ∈ scopeOf secret intent → k ∈ secret.keys →
        alookup secret'.values k = some (gen k))
  ∧ secret'.keys = secret.keys
  ∧ secret'.rotation_history = secret.rotation_history ++
      [⟨now, rotatedBy, maxVersion secret.rotation_history + 1⟩] := by
  obtain rfl := rotateSecret_ok_eq secret intent gen now rotatedBy writeOk secret' h
  refine ⟨?_, ?_, ?_, rfl⟩
  · intro k hk
    simp only [alookup_mergePayload, hk, if_false]
  · intro k hk hkeys
    simp only [alookup_mergePayload, hk, if_true]
    have : (alookup secret.values k).isSome :=
      (alookup_isSome_iff secret.values k).mpr hkeys
    obtain ⟨val, hval⟩ := Option.isSome_iff_exists.mp this
    rw [hval]
    rfl
  · exact keysOf_mergePayload secret.values _ gen

/-- Witness for C1: rotating only `api_key` on a secret with keys
`["db_url", "api_key"]` leaves `db_url` byte-for-byte untouched. -/
theorem rotate_frame_effect_witness :
    alookup (SecretObj.mk [("db_url", "u1"), ("api_key", "api_keyv2")]
        [⟨0, none, 1⟩, ⟨5, none, 2⟩]).values "db_url" =
      alookup (SecretObj.mk [("db_url", "u1"), ("api_key", "a1")]
        [⟨0, none, 1⟩]).values "db_url" :=
  (rotate_frame_effect ⟨[("db_url", "u1"), ("api_key", "a1")], [⟨0, none, 1⟩]⟩
      ⟨["api_key"], true, true⟩ (fun k => k ++ "v2") 5 none true
      ⟨[("db_url", "u1"), ("api_key", "api_keyv2")], [⟨0, none, 1⟩, ⟨5, none, 2⟩]⟩
      (by decide)).1 "db_url" (by decide)

/-- C5: rotation_history is append-only: each successful rotation appends
exactly one entry with version = previous maximum + 1, so two successive
rotations append two distinct, strictly increasing versions and strict
monotonicity of the version sequence is preserved. -/
theorem rotation_history_versions (secret secret1 secret2 : SecretObj)
    (i1 i2 : RotationIntent) (gen1 gen2 : String → String) (t1 t2 : Nat)
    (rb1 rb2 : Option String) (w1 w2 : Bool)
    (hc : List.Chain' (· < ·) (historyVersions secret.rotation_history))
    (h1 : rotateSecret secret i1 gen1 t1 rb1 w1 = .ok secret1)
    (h2 : rotateSecret secret1 i2 gen2 t2 rb2 w2 = .ok secret2) :
    secret1.rotation_history = secret.rotation_history ++
        [⟨t1, rb1, maxVersion secret.rotation_history + 1⟩]
  ∧ secret2.rotation_history = secret1.rotation_history ++
        [⟨t2, rb2, maxVersion secret.rotation_history + 2⟩]
  ∧ List.Chain' (· < ·) (historyVersions secret2.rotation_history) := by
  have e1 := rotateSecret_ok_eq secret i1 gen1 t1 rb1 w1 secret1 h1
  have e2 := rotateSecret_ok_eq secret1 i2 gen2 t2 rb2 w2 secret2 h2
  have hh1 : secret1.rotation_history = secret.rotation_history ++
      [⟨t1, rb1, maxVersion secret.rotation_history + 1⟩] := by rw [e1]
  have hmax1 : maxVersion secret1.rotation_history =
      maxVersion secret.rotation_history + 1 := by
    rw [hh1, maxVersion_append_one]
    exact Nat.max_eq_right (Nat.le_succ _)
  have hh2 : secret2.rotation_history = secret1.rotation_history ++
      [⟨t2, rb2, maxVersion secret.rotation_history + 2⟩] := by
    rw [e2, hmax1]
  have hch1 : List.Chain' (· < ·) (historyVersions secret1.rotation_history) := by
    rw [hh1]
    exact chain_append_new _ _ hc (Nat.lt_succ_self _)
  refine ⟨hh1, hh2, ?_⟩
  rw [hh2]
  refine chain_append_new _ _ hch1 ?_
  rw [hmax1]
  exact Nat.lt_succ_self _

/-- Witness for C5: two successive rotations of a fresh secret produce the
strictly increasing version sequence [1, 2]. -/
theorem rotation_history_versions_witness :
    List.Chain' (· < ·)
      (historyVersions [⟨1, none, 1⟩, ⟨2, none, 2⟩]) :=
  (rotation_history_versions ⟨[("a", "v0")], []⟩ ⟨[("a", "x")], [⟨1, none, 1⟩]⟩
      ⟨[("a", "x")], [⟨1, none, 1⟩, ⟨2, none, 2⟩]⟩
      ⟨[], true, false⟩ ⟨[], true, false⟩ (fun _ => "x") (fun _ => "x")
      1 2 none none true true (by decide) (by decide) (by decide)).2.2

/-- C4: a Rotate call whose non-empty requested_keys is not a subset of
the secret's current key set fails with UnknownKey after exactly one
attempt (never retried) and performs no mutation: the store — hence the
secret's values, key set and rotation_history length — is unchanged. -/
theorem rotate_unknown_key (store : List (String × SecretObj))
    (locks : List String) (sid : String) (secret : SecretObj)
    (intent : RotationIntent) (gen : String → String) (now : Nat)
    (rotatedBy : Option String) (w1 w2 : Bool) (deps : List String)
    (trig : String → Bool)
    (hlock : sid ∉ locks) (hfound : alookup store sid = some secret)
    (hne : ¬ intent.requested_keys.isEmpty)
    (hsub : ¬ ∀ k ∈ intent.requested_keys, k ∈ secret.keys) :
    rotateWithRetry store locks sid intent gen now rotatedBy w1 w2 deps trig
      = (store, .error .unknownKey, 1) := by
  have hrs : rotateSecret secret intent gen now rotatedBy w1
      = .error .unknownKey := by
    simp only [rotateSecret, if_pos (And.intro hne hsub)]
  have hr : rotate store locks sid intent gen now rotatedBy w1 deps trig
      = (store, .error .unknownKey) := by
    simp only [rotate, if_neg hlock, hfound, hrs]
  unfold rotateWithRetry
  rw [hr]

/-- Witness for C4: Scenario C — requesting `unknown_key` on a secret with
keys `["db_url", "api_key"]` fails with UnknownKey, one attempt, store and
history untouched. -/
theorem rotate_unknown_key_witness :
    rotateWithRetry
        [("svc", ⟨[("db_url", "u1"), ("api_key", "a1")], [⟨0, none, 1⟩]⟩)]
        [] "svc" ⟨["unknown_key"], true, true⟩ (fun _ => "x") 9 none true true
        ["d1"] (fun _ => true)
      = ([("svc", ⟨[("db_url", "u1"), ("api_key", "a1")], [⟨0, none, 1⟩]⟩)],
         .error .unknownKey, 1) :=
  rotate_unknown_key
    [("svc", ⟨[("db_url", "u1"), ("api_key", "a1")], [⟨0, none, 1⟩]⟩)]
    [] "svc" ⟨[("db_url", "u1"), ("api_key", "a1")], [⟨0, none, 1⟩]⟩
    ⟨["unknown_key"], true, true⟩ (fun _ => "x") 9 none true true
    ["d1"] (fun _ => true) (by decide) (by decide) (by decide) (by decide)

/-- C2: steps 1–5 are all-or-nothing — every error leaves the store, and
so the secret's values, key set and rotation_history, completely
unchanged; and when steps 1–5 succeed, step 6 triggers every dependent
deployment regardless of individual trigger failures, reports each
deployment's own outcome in the RotationResult, and a trigger failure
neither rolls back the written secret nor fails the overall rotation. -/
theorem rotate_failure_semantics (store : List (String × SecretObj))
    (locks : List String) (sid : String) (intent : RotationIntent)
    (gen : String → String) (now : Nat) (rotatedBy : Option String)
    (writeOk : Bool) (deps : List String) (trig : String → Bool) :
    (∀ store' e,
        rotate store locks sid intent gen now rotatedBy writeOk deps trig
          = (store', .error e) → store' = store)
  ∧ (∀ secret secret', sid ∉ locks → alookup store sid = some secret →
      rotateSecret secret intent gen now rotatedBy writeOk = .ok secret' →
      intent.update_deployments = true →
      rotate store locks sid intent gen now rotatedBy writeOk deps trig
        = (aupdate store sid secret',
           .ok ⟨secret'.keys, maxVersion secret.rotation_history + 1,
                deps.map (fun d => (d, trig d))⟩)
      ∧ ∀ d ∈ deps, (d, trig d) ∈ deps.map (fun d => (d, trig d))) := by
  constructor
  · intro store' e h
    by_cases hl : sid ∈ locks
    · simp only [rotate, if_pos hl] at h
      exact (Prod.mk.inj h).1.symm
    · simp only [rotate, if_neg hl] at h
      cases hf : alookup store sid with
      | none =>
        simp only [hf] at h
        exact (Prod.mk.inj h).1.symm
      | some secret =>
        simp only [hf] at h
        cases hrs : rotateSecret secret intent gen now rotatedBy writeOk with
        | error e' =>
          simp only [hrs] at h
          exact (Prod.mk.inj h).1.symm
        | ok s' =>
          simp only [hrs] at h
          exact absurd (Prod.mk.inj h).2 (by simp)
  · intro secret secret' hl hf hrs hupd
    constructor
    · simp only [rotate, if_neg hl, hf, hrs, hupd, if_true]
    · intro d hd
      exact List.mem_map.mpr ⟨d, hd, rfl⟩

/-- Witness for C2: with `d1`'s trigger succeeding and `d2`'s failing, the
rotation still succeeds, the store holds the rotated secret, and both
deployments' outcomes are reported individually. -/
theorem rotate_failure_semantics_witness :
    rotate [("svc", ⟨[("a", "v0")], []⟩)] [] "svc" ⟨[], true, true⟩
        (fun _ => "x") 3 none true ["d1", "d2"] (fun d => d == "d1")
      = ([("svc", ⟨[("a", "x")], [⟨3, none, 1⟩]⟩)],
         .ok ⟨["a"], 1, [("d1", true), ("d2", false)]⟩) :=
  ((rotate_failure_semantics [("svc", ⟨[("a", "v0")], []⟩)] [] "svc"
      ⟨[], true, true⟩ (fun _ => "x") 3 none true ["d1", "d2"]
      (fun d => d == "d1")).2
    ⟨[("a", "v0")], []⟩ ⟨[("a", "x")], [⟨3, none, 1⟩]⟩
    (by decide) (by decide) (by decide) rfl).1

/-- C7: at most one rotation is in flight per service_id — while one call
holds the per-service token, acquisition for the same service fails and a
same-service Rotate fails fast with RotationInProgress before step 1,
mutating nothing; acquisition and rotation for a different service_id are
not serialized against it. -/
theorem rotation_mutual_exclusion (locks : List String) (sid sid' : String)
    (store : List (String × SecretObj)) (intent : RotationIntent)
    (gen : String → String) (now : Nat) (rotatedBy : Option String)
    (writeOk : Bool) (deps : List String) (trig : String → Bool)
    (hfree : sid ∉ locks) (hne : sid' ≠ sid) (hfree' : sid' ∉ locks) :
    tryAcquire locks sid = some (sid :: locks)
  ∧ tryAcquire (sid :: locks) sid = none
  ∧ rotate store (sid :: locks) sid intent gen now rotatedBy writeOk deps trig
      = (store, .error .rotationInProgress)
  ∧ tryAcquire (sid :: locks) sid' = some (sid' :: sid :: locks)
  ∧ (rotate store (sid :: locks) sid' intent gen now rotatedBy writeOk deps
       trig).2 ≠ .error .rotationInProgress := by
  have hnotin : sid' ∉ sid :: locks := by
    simp [List.mem_cons, hne, hfree']
  refine ⟨by simp [tryAcquire, hfree], by simp [tryAcquire], ?_, ?_, ?_⟩
  · simp [rotate]
  · simp [tryAcquire, hnotin]
  · simp only [rotate, if_neg hnotin]
    cases hf : alookup store sid' with
    | none => simp [hf]
    | some s =>
      cases hrs : rotateSecret s intent gen now rotatedBy writeOk with
      | error e' =>
        simp only [hf, hrs]
        simpa using rotateSecret_ne_inProgress s intent gen now rotatedBy
          writeOk e' hrs
      | ok s' => simp [hf, hrs]

/-- Witness for C7: with `svc` in flight, re-acquisition for `svc` fails
while a second rotation for `svc` observes RotationInProgress with the
store untouched, and `other` acquires independently. -/
theorem rotation_mutual_exclusion_witness :
    rotate [] ["svc"] "svc" ⟨[], true, true⟩ (fun _ => "x") 0 none true []
        (fun _ => true)
      = ([], .error .rotationInProgress) :=
  (rotation_mutual_exclusion [] "svc" "other" [] ⟨[], true, true⟩
      (fun _ => "x") 0 none true [] (fun _ => true)
      (by decide) (by decide) (by decide)).2.2.1

theorem scanTick_preserves (now w : Nat) (d : Bool) (e : EnvObj) :
    (scanTick now w d e).expires_at = e.expires_at
  ∧ (scanTick now w d e).created_at = e.created_at
  ∧ (scanTick now w d e).ttl_hours = e.ttl_hours := by
  obtain ⟨eid, ns, t, c, ex, st, np⟩ := e
  cases st with
  | deleted => exact ⟨rfl, rfl, rfl⟩
  | expired =>
    simp only [scanTick]
    split_ifs <;> exact ⟨rfl, rfl, rfl⟩
  | creating =>
    simp only [scanTick]
    split_ifs <;> exact ⟨rfl, rfl, rfl⟩
  | active =>
    simp only [scanTick]
    cases impliedStatus now ex w <;> exact ⟨rfl, rfl, rfl⟩
  | expiring =>
    simp only [scanTick]
    cases impliedStatus now ex w <;> exact ⟨rfl, rfl, rfl⟩

theorem manualDelete_preserves (d : Bool) (e : EnvObj) :
    (manualDelete d e).expires_at = e.expires_at
  ∧ (manualDelete d e).created_at = e.created_at
  ∧ (manualDelete d e).ttl_hours = e.ttl_hours := by
  simp only [manualDelete]
  split_ifs <;> exact ⟨rfl, rfl, rfl⟩

/-- C3: expires_at = created_at + ttl_hours is fixed once at creation;
no scan tick and no manual delete ever changes expires_at (nor created_at
nor ttl_hours) — they change only status and namespace presence; and
deriving expires_at twice from the same created_at/ttl_hours pair yields
the same value. -/
theorem expires_at_immutable (eid ns : String) (created ttl : Nat) :
    (mkEnvironment eid ns created ttl).expires_at = created + ttl * 3600
  ∧ (∀ (now w : Nat) (d : Bool) (e : EnvObj),
      (scanTick now w d e).expires_at = e.expires_at
      ∧ (scanTick now w d e).created_at = e.created_at
      ∧ (scanTick now w d e).ttl_hours = e.ttl_hours)
  ∧ (∀ (d : Bool) (e : EnvObj),
      (manualDelete d e).expires_at = e.expires_at)
  ∧ (∀ c' t', c' = created → t' = ttl →
      (mkEnvironment eid ns c' t').expires_at
        = (mkEnvironment eid ns created ttl).expires_at) := by
  refine ⟨rfl, scanTick_preserves, fun d e => (manualDelete_preserves d e).1, ?_⟩
  intro c' t' hc ht
  rw [hc, ht]

/-- Witness for C3: a one-hour environment created at t = 0 expires at
3600, and a scan at its expiry leaves expires_at untouched. -/
theorem expires_at_immutable_witness :
    (mkEnvironment "env-1" "ns-1" 0 1).expires_at = 0 + 1 * 3600
  ∧ (mkEnvironment "env-1" "ns-1" 0 1).expires_at
      = (mkEnvironment "env-1" "ns-1" 0 1).expires_at :=
  ⟨(expires_at_immutable "env-1" "ns-1" 0 1).1,
   (expires_at_immutable "env-1" "ns-1" 0 1).2.2.2 0 1 rfl rfl⟩

theorem scanTick_status_deterministic (now w' : Nat) (dk : Bool)
    (x y : EnvObj) (hex : x.expires_at = y.expires_at)
    (hst : x.status = y.status) (hnp : x.nsPresent = y.nsPresent) :
    (scanTick now w' dk x).status = (scanTick now w' dk y).status := by
  obtain ⟨x1, x2, x3, x4, x5, x6, x7⟩ := x
  obtain ⟨y1, y2, y3, y4, y5, y6, y7⟩ := y
  simp only at hex hst hnp
  subst hex hst hnp
  cases x6 with
  | deleted => rfl
  | expired =>
    simp only [scanTick]
    split_ifs <;> rfl
  | creating =>
    simp only [scanTick]
    split_ifs <;> rfl
  | active =>
    simp only [scanTick]
    cases impliedStatus now x5 w' <;> rfl
  | expiring =>
    simp only [scanTick]
    cases impliedStatus now x5 w' <;> rfl

/-- Counterexample to C6 as stated: with the spec's own example
warning_window of one hour (3600 s), an environment created at t0 = 0 with
ttl_hours = 1 is reported Expiring — not Active — by a scan at t0+59min,
because now ≥ expires_at - warning_window already holds at creation. -/
theorem scan_scenario_a_counterexample :
    (scanTick 3540 3600 true (mkEnvironment "env-1" "ns-1" 0 1)).status
        = EnvStatus.expiring
  ∧ (scanTick 3540 3600 true (mkEnvironment "env-1" "ns-1" 0 1)).status
        ≠ EnvStatus.active := by decide

/-- C6 (amended): the state a scan reports is a deterministic function of
the injected time and the recorded expires_at/status/namespace-presence
(Active → Expiring at now ≥ expires_at - warning_window, Expiring →
Expired at now ≥ expires_at); and provided warning_window < 60 s, an
environment created at t0 with ttl_hours = 1 is reported Active by a scan
at t0+59min, Expired — with the cleanup delete issued — by a scan at
t0+61min, and Deleted by a subsequent scan. -/
theorem scan_scenario_a (t0 w : Nat) (eid ns : String) (d3 : Bool)
    (hw : w < 60) :
    (scanTick (t0 + 3540) w true (mkEnvironment eid ns t0 1)).status
        = .active
  ∧ (scanTick (t0 + 3660) w true
       (scanTick (t0 + 3540) w true (mkEnvironment eid ns t0 1))).status
        = .expired
  ∧ (scanTick (t0 + 3660) w true
       (scanTick (t0 + 3540) w true (mkEnvironment eid ns t0 1))).nsPresent
        = false
  ∧ (scanTick (t0 + 3720) w d3
       (scanTick (t0 + 3660) w true
         (scanTick (t0 + 3540) w true (mkEnvironment eid ns t0 1)))).status
        = .deleted
  ∧ (∀ (now w' : Nat) (dk : Bool) (x y : EnvObj),
      x.expires_at = y.expires_at → x.status = y.status →
      x.nsPresent = y.nsPresent →
      (scanTick now w' dk x).status = (scanTick now w' dk y).status) := by
  have hiA : impliedStatus (t0 + 3540) (t0 + 3600) w = .active := by
    unfold impliedStatus
    rw [if_neg (by omega), if_neg (by omega)]
  have hiE : impliedStatus (t0 + 3660) (t0 + 3600) w = .expired := by
    unfold impliedStatus
    rw [if_pos (by omega)]
  have h0 : mkEnvironment eid ns t0 1 = ⟨eid, ns, 1, t0, t0 + 3600, .creating, true⟩ := by
    simp [mkEnvironment]
  have h1 : scanTick (t0 + 3540) w true (mkEnvironment eid ns t0 1)
      = ⟨eid, ns, 1, t0, t0 + 3600, .active, true⟩ := by
    rw [h0]
    simp [scanTick, hiA]
  have h2 : scanTick (t0 + 3660) w true
      (⟨eid, ns, 1, t0, t0 + 3600, .active, true⟩ : EnvObj)
      = ⟨eid, ns, 1, t0, t0 + 3600, .expired, false⟩ := by
    simp [scanTick, hiE]
  have h3 : scanTick (t0 + 3720) w d3
      (⟨eid, ns, 1, t0, t0 + 3600, .expired, false⟩ : EnvObj)
      = ⟨eid, ns, 1, t0, t0 + 3600, .deleted, false⟩ := by
    simp [scanTick]
  refine ⟨by rw [h1], by rw [h1, h2], by rw [h1, h2], by rw [h1, h2, h3],
    scanTick_status_deterministic⟩

/-- Witness for C6 (amended) at t0 = 0 with warning_window = 0. -/
theorem scan_scenario_a_witness :
    (scanTick (0 + 3540) 0 true (mkEnvironment "env-1" "ns-1" 0 1)).status
      = EnvStatus.active :=
  (scan_scenario_a 0 0 "env-1" "ns-1" true (by decide)).1

/-- C8: deletion is idempotent — destroying an already-absent namespace
returns success with the cluster unchanged; after a successful destroy a
second destroy succeeds and leaves the cluster as after the first, so
deleting twice is observably the same as deleting once; the cleanup
routines (scan and manual delete) likewise treat an already-absent
namespace as success, recording Deleted. -/
theorem destroy_idempotent (cluster : List String) (name : String)
    (dk dk2 : Bool) (hnodup : cluster.Nodup) :
    (name ∉ cluster → destroyNamespace dk cluster name = (cluster, true))
  ∧ (destroyNamespace true cluster name).2 = true
  ∧ destroyNamespace dk2 (destroyNamespace true cluster name).1 name
      = ((destroyNamespace true cluster name).1, true)
  ∧ (∀ (e : EnvObj) (d : Bool), e.nsPresent = false →
      (manualDelete d e).status = .deleted)
  ∧ (∀ (now w : Nat) (d : Bool) (e : EnvObj), e.status = .expired →
      e.nsPresent = false → (scanTick now w d e).status = .deleted) := by
  refine ⟨?_, ?_, ?_, ?_, ?_⟩
  · intro h
    simp [destroyNamespace, h]
  · by_cases hm : name ∈ cluster <;> simp [destroyNamespace, hm]
  · by_cases hm : name ∈ cluster
    · have hgone : name ∉ cluster.erase name := hnodup.not_mem_erase
      simp [destroyNamespace, hm, hgone]
    · simp [destroyNamespace, hm]
  · intro e d h
    simp [manualDelete, h]
  · intro now w d e hst hns
    obtain ⟨e1, e2, e3, e4, e5, e6, e7⟩ := e
    simp only at hst hns
    subst hst hns
    simp [scanTick]

/-- Witness for C8: destroying `ns-a` twice in a two-namespace cluster
equals destroying it once, and the second call still reports success. -/
theorem destroy_idempotent_witness :
    destroyNamespace true
        (destroyNamespace true ["ns-a", "ns-b"] "ns-a").1 "ns-a"
      = ((destroyNamespace true ["ns-a", "ns-b"] "ns-a").1, true) :=
  (destroy_idempotent ["ns-a", "ns-b"] "ns-a" true true (by decide)).2.2.1

/-- C10: the secrets module's written data follows a fixed precedence —
non-empty secret_data is written verbatim with secret_keys ignored (no
random_password instances are created even if secret_keys is non-empty);
with empty secret_data and non-empty secret_keys every listed key gets an
independently generated random value of length secret_key_length; with
both empty the secret's data is empty. -/
theorem secret_data_precedence (d : List (String × String)) (ks : List String)
    (gv : Nat → String → String) (len : Nat) :
    (d ≠ [] → generated_secret_data d ks gv len = d
        ∧ randomPasswordKeys d ks = [])
  ∧ (d = [] → ks ≠ [] →
      generated_secret_data d ks gv len = ks.map (fun k => (k, gv len k))
        ∧ randomPasswordKeys d ks = ks)
  ∧ (d = [] → ks = [] → generated_secret_data d ks gv len = []) := by
  refine ⟨fun hd => ?_, fun hd hk => ?_, fun hd hk => ?_⟩
  · have hl : 0 < d.length := List.length_pos.mpr hd
    constructor
    · simp only [generated_secret_data]
      rw [if_pos hl]
    · simp only [randomPasswordKeys]
      rw [if_neg (by omega)]
  · subst hd
    have hk' : 0 < ks.length := List.length_pos.mpr hk
    constructor
    · rfl
    · simp only [randomPasswordKeys]
      rw [if_pos ⟨rfl, hk'⟩]
  · subst hd
    subst hk
    rfl

/-- Witness for C10: provided data wins verbatim over listed keys, and no
random value is generated. -/
theorem secret_data_precedence_witness :
    generated_secret_data [("db_url", "postgres://x")] ["api_key"]
        (fun _ k => k ++ "-rnd") 32
      = [("db_url", "postgres://x")]
  ∧ randomPasswordKeys [("db_url", "postgres://x")] ["api_key"] = [] :=
  (secret_data_precedence [("db_url", "postgres://x")] ["api_key"]
      (fun _ k => k ++ "-rnd") 32).1 (by decide)

theorem alookup_append {α : Type} (l1 l2 : List (String × α)) (k : String) :
    alookup (l1 ++ l2) k =
      match alookup l1 k with
      | some v => some v
      | none => alookup l2 k := by
  induction l1 with
  | nil => simp [alookup]
  | cons p rest ih =>
    obtain ⟨pk, pv⟩ := p
    by_cases hpk : pk = k <;> simp [alookup, hpk, ih]

theorem alookup_filter_of_pos {α : Type} (l : List (String × α))
    (p : String → Bool) (k : String) (hk : p k = true) :
    alookup (l.filter (fun q => p q.1)) k = alookup l k := by
  induction l with
  | nil => rfl
  | cons q rest ih =>
    obtain ⟨qk, qv⟩ := q
    by_cases hq : qk = k
    · subst hq
      simp [List.filter_cons, hk, alookup]
    · cases hpq : p qk <;> simp [List.filter_cons, hpq, alookup, hq, ih]

theorem alookup_filter_of_neg {α : Type} (l : List (String × α))
    (p : String → Bool) (k : String) (hk : p k = false) :
    alookup (l.filter (fun q => p q.1)) k = none := by
  induction l with
  | nil => rfl
  | cons q rest ih =>
    obtain ⟨qk, qv⟩ := q
    by_cases hq : qk = k
    · subst hq
      simp [List.filter_cons, hk, ih]
    · cases hpq : p qk <;> simp [List.filter_cons, hpq, alookup, hq, ih]

theorem alookup_tfMerge_of_none (base extra : List (String × String))
    (k : String) (h : alookup extra k = none) :
    alookup (tfMerge base extra) k = alookup base k := by
  unfold tfMerge
  rw [alookup_append]
  rw [alookup_filter_of_pos base (fun s => (alookup extra s).isNone) k
    (by simp [h])]
  cases hb : alookup base k <;> simp [h]

theorem alookup_tfMerge_of_some (base extra : List (String × String))
    (k : String) (v : String) (h : alookup extra k = some v) :
    alookup (tfMerge base extra) k = some v := by
  unfold tfMerge
  rw [alookup_append]
  rw [alookup_filter_of_neg base (fun s => (alookup extra s).isNone) k
    (by simp [h])]
  simp [h]

theorem filterMap_serviceDeployments (nsName : String) (svcs : List String) :
    (svcs.map (serviceDeploymentObj nsName)).filterMap
        (fun o => alookup o.labels "service-id") = svcs := by
  induction svcs with
  | nil => rfl
  | cons s rest ih =>
    simp only [List.map_cons, List.filterMap_cons]
    have : alookup (serviceDeploymentObj nsName s).labels "service-id" = some s := by
      simp [serviceDeploymentObj, alookup]
    rw [this, ih]

theorem tfMerge_isSome (base extra : List (String × String)) (k : String)
    (hbase : (alookup base k).isSome) :
    (alookup (tfMerge base extra) k).isSome := by
  cases hx : alookup extra k with
  | some v => rw [alookup_tfMerge_of_some base extra k v hx]; rfl
  | none => rw [alookup_tfMerge_of_none base extra k hx]; exact hbase

/-- C9: every environment namespace carries the managed-by,
environment-id, ttl-hours, expires-at and temporary-environment labels and
the developer-self-service/created-at and .../expires-at annotations
(src/terraform/modules/environment/main.tf), and the full environment
record — identity, ttl_hours, created_at, expires_at and its services set
— is rebuilt purely by listing the labelled cluster objects and reading
their labels/annotations; no other store is consulted. -/
theorem namespace_labels_recoverable (eid2 envName2 : String) (ttl2 : Nat)
    (expStr createdStamp : String) (extra2 : List (String × String))
    (r : EnvRecord) (envName : String) (extra : List (String × String))
    (hm : alookup extra "managed-by" = none)
    (hi : alookup extra "environment-id" = none)
    (ht : alookup extra "ttl-hours" = none) :
    (∀ k ∈ (["managed-by", "environment-id", "ttl-hours", "expires-at",
             "temporary-environment"] : List String),
       (alookup (environmentNamespaceLabels eid2 envName2 ttl2 expStr extra2)
          k).isSome)
  ∧ (∀ k ∈ (["developer-self-service/created-at",
             "developer-self-service/expires-at"] : List String),
       (alookup (environmentNamespaceAnnots ttl2 expStr createdStamp)
          k).isSome)
  ∧ rebuildRecord (envObjsOf r envName extra) r.namespace_name = some r := by
  refine ⟨?_, ?_, ?_⟩
  · intro k hk
    unfold environmentNamespaceLabels
    apply tfMerge_isSome
    fin_cases hk <;> simp [alookup]
  · intro k hk
    fin_cases hk <;> simp [environmentNamespaceAnnots, alookup]
  · obtain ⟨eid0, ns0, ttl0, c0, x0, svcs0⟩ := r
    have hmb : alookup (environmentNamespaceLabels eid0 envName ttl0
        (natStr x0) extra) "managed-by" = some "developer-self-service" := by
      unfold environmentNamespaceLabels
      rw [alookup_tfMerge_of_none _ _ _ hm]
      simp [alookup]
    have hid : alookup (environmentNamespaceLabels eid0 envName ttl0
        (natStr x0) extra) "environment-id" = some eid0 := by
      unfold environmentNamespaceLabels
      rw [alookup_tfMerge_of_none _ _ _ hi]
      simp [alookup]
    have httl : alookup (environmentNamespaceLabels eid0 envName ttl0
        (natStr x0) extra) "ttl-hours" = some (natStr ttl0) := by
      unfold environmentNamespaceLabels
      rw [alookup_tfMerge_of_none _ _ _ ht]
      simp [alookup]
    have hca : alookup (environmentNamespaceAnnots ttl0 (natStr x0)
        (natStr c0)) "developer-self-service/created-at"
        = some (natStr c0) := by
      simp [environmentNamespaceAnnots, alookup]
    have hxa : alookup (environmentNamespaceAnnots ttl0 (natStr x0)
        (natStr c0)) "developer-self-service/expires-at"
        = some (natStr x0) := by
      simp [environmentNamespaceAnnots, alookup]
    have hfind : (envObjsOf ⟨eid0, ns0, ttl0, c0, x0, svcs0⟩ envName extra).find?
        (fun o => o.kind = "Namespace" && o.name = ns0 && managedBySystem o)
        = some (environmentNamespaceObj ns0 eid0 envName ttl0 (natStr x0)
            (natStr c0) extra) := by
      unfold envObjsOf
      apply List.find?_cons_of_pos
      simp [environmentNamespaceObj, managedBySystem, hmb]
    have hsvc : ((envObjsOf ⟨eid0, ns0, ttl0, c0, x0, svcs0⟩ envName extra).filter
        (fun o => o.kind = "Deployment" && o.ns = ns0 && managedBySystem o))
        = svcs0.map (serviceDeploymentObj ns0) := by
      unfold envObjsOf
      rw [List.filter_cons_of_neg]
      · apply List.filter_eq_self.mpr
        intro o hmem
        obtain ⟨sid, hsid, rfl⟩ := List.mem_map.mp hmem
        simp [serviceDeploymentObj, managedBySystem, alookup]
      · simp [environmentNamespaceObj]
    simp only [rebuildRecord, hfind]
    simp only [environmentNamespaceObj, hid, httl, hca, hxa, Option.bind_some,
      decodeNat_natStr]
    rw [hsvc, filterMap_serviceDeployments]
    simp [decodeNat_natStr]

/-- Witness for C9: a concrete two-service environment record round-trips
through its cluster objects. -/
theorem namespace_labels_recoverable_witness :
    rebuildRecord
        (envObjsOf ⟨"env-1", "ns-1", 24, 100, 86500, ["svc-a", "svc-b"]⟩
          "demo" [])
        (EnvRecord.mk "env-1" "ns-1" 24 100 86500 ["svc-a", "svc-b"]).namespace_name
      = some ⟨"env-1", "ns-1", 24, 100, 86500, ["svc-a", "svc-b"]⟩ :=
  (namespace_labels_recoverable "e" "n" 0 "x" "y" []
      ⟨"env-1", "ns-1", 24, 100, 86500, ["svc-a", "svc-b"]⟩ "demo" []
      rfl rfl rfl).2.2

end DevSelfService
